import Mathlib

/-!
Verification of the looSTAAR logo-generator script.

The script (`logo_generator.py`) generates a 1080×1080 iridescent background,
measures the bounding box of the string "looSTAAR" in a truetype font, centers
the text with Python floor division (`//`), draws it, and saves the image.
Python's `//` on integers is floor division, embedded here as `Int.fdiv`.
-/

namespace LogoGen

/-- Canvas produced by the external background generator: a raster buffer
with fixed integer pixel dimensions (`bg.width`, `bg.height` in the script). -/
structure Canvas where
  width : Int
  height : Int
deriving DecidableEq, Repr

/-- Font handle returned by `ImageFont.truetype(font_path, font_size)`. -/
structure Font where
  path : String
  size : Int
deriving DecidableEq, Repr

/-- A text bounding box as returned by `draw.textbbox((0, 0), text, font)`:
the 4-tuple `(bbox[0], bbox[1], bbox[2], bbox[3])` = left, top, right, bottom. -/
structure BBox where
  x0 : Int
  y0 : Int
  x1 : Int
  y1 : Int
deriving DecidableEq, Repr

/-- `text_width = bbox[2] - bbox[0]` (line 20 of the script). -/
def text_width (b : BBox) : Int := b.x1 - b.x0

/-- `text_height = bbox[3] - bbox[1]` (line 21 of the script). -/
def text_height (b : BBox) : Int := b.y1 - b.y0

/-- `x = (bg.width - text_width) // 2` (line 24): Python floor division. -/
def centerX (canvas_width tw : Int) : Int := (canvas_width - tw).fdiv 2

/-- `y = (bg.height - text_height) // 2` (line 25): Python floor division. -/
def centerY (canvas_height th : Int) : Int := (canvas_height - th).fdiv 2

/-- The centered placement `(x, y)` computed by lines 24–25 of the script. -/
def centerPlacement (cw ch tw th : Int) : Int × Int :=
  (centerX cw tw, centerY ch th)

/-- The spec's own formula for centering, written as it reads in §4.1:
`x = (canvas_width - text_width) / 2` with exact rational division followed
by the floor (integer floor division). Used to compare against the source. -/
def centerPlacementSpec (cw ch tw th : Int) : Int × Int :=
  (⌊((cw - tw : Int) : ℚ) / 2⌋, ⌊((ch - th : Int) : ℚ) / 2⌋)

/-- Script-time constants: `generate_iridescent_background(width=1080, height=1080)`. -/
def scriptCanvas : Canvas := ⟨1080, 1080⟩

/-- The script placement: centering formula applied to the bounding-box
extents of the measured bbox, as lines 24–25 do. -/
def scriptPlacement (cw ch : Int) (b : BBox) : Int × Int :=
  centerPlacement cw ch ( text_width b) ( text_height b)

/-- Model of the PIL drawing primitive: text drawn at position `p` occupies
the origin-anchored bounding box `b` translated by `p`; drawing is total
(PIL clips silently, it never raises for out-of-bounds coordinates). -/
def drawnBBox (p : Int × Int) (b : BBox) : BBox :=
  ⟨p.1 + b.x0, p.2 + b.y0, p.1 + b.x1, p.2 + b.y1⟩

/-- The top-left corner of the ink actually painted when the script draws the
text at `scriptPlacement`: the placement shifted by the bbox's own origin. -/
def inkTopLeft (cw ch : Int) (b : BBox) : Int × Int :=
  ((drawnBBox (scriptPlacement cw ch b) b).x0, (drawnBBox (scriptPlacement cw ch b) b).y0)

/-- Modelled from the spec: the second script (the wide 1600×240 banner with a
manually supplied position) is not under `src/`; per §4.1 "Alternative mode"
and §8 scenario 2, an explicitly supplied coordinate is used in lieu of the
computed centering, bypassing the calculation entirely. -/
def resolvePlacement (manualPosition : Option (Int × Int))
    (cw ch tw th : Int) : Int × Int :=
  match manualPosition with
  | some p => p
  | none => centerPlacement cw ch tw th

/-- Outcome of one run of the script: whether it completed, and the list of
files written to disk (the `bg.save` path when it completed). -/
structure Outcome where
  ok : Bool
  written : List String
deriving DecidableEq, Repr

/-- The whole script as a linear sequence of fallible steps, in source order:
generate background → load font → measure text → compute placement → draw →
save. External collaborators are oracles; any failure aborts the run at that
point, and the save (the only write) is the final step. -/
def runScript (bg : Option Canvas) (fontLoad : Option Font)
    (measure : Canvas → Font → Option BBox)
    (drawStep : Canvas → Int × Int → Option Canvas)
    (savePath : String) (saveStep : Canvas → String → Option Unit) : Outcome :=
  match bg with
  | none => ⟨false, []⟩
  | some c =>
    match fontLoad with
    | none => ⟨false, []⟩
    | some f =>
      match measure c f with
      | none => ⟨false, []⟩
      | some b =>
        match drawStep c (scriptPlacement c.width c.height b) with
        | none => ⟨false, []⟩
        | some c2 =>
          match saveStep c2 savePath with
          | none => ⟨false, []⟩
          | some _ => ⟨true, [savePath]⟩

theorem centerX_eq_ediv (cw tw : Int) : centerX cw tw = (cw - tw) / 2 := by
  unfold centerX
  exact Int.fdiv_eq_ediv _ (by norm_num)

theorem centerY_eq_ediv (ch th : Int) : centerY ch th = (ch - th) / 2 := by
  unfold centerY
  exact Int.fdiv_eq_ediv _ (by norm_num)

/-- C1: for all non-negative integers `cw, ch, tw, th` with `tw ≤ cw` and
`th ≤ ch`, the centered placement `(x, y)` satisfies `x ≥ 0`, `y ≥ 0`,
`x + tw ≤ cw` and `y + th ≤ ch`. -/
theorem centered_placement_in_bounds (cw ch tw th : Int)
    (hcw : 0 ≤ cw) (hch : 0 ≤ ch) (htw : 0 ≤ tw) (hth : 0 ≤ th)
    (hw : tw ≤ cw) (hh : th ≤ ch) :
    0 ≤ (centerPlacement cw ch tw th).1 ∧ 0 ≤ (centerPlacement cw ch tw th).2 ∧
    (centerPlacement cw ch tw th).1 + tw ≤ cw ∧
    (centerPlacement cw ch tw th).2 + th ≤ ch := by
  unfold centerPlacement
  rw [centerX_eq_ediv, centerY_eq_ediv]
  refine ⟨?_, ?_, ?_, ?_⟩ <;> omega

theorem centered_placement_in_bounds_witness :
    0 ≤ (centerPlacement 1080 1080 800 120).1 ∧
    0 ≤ (centerPlacement 1080 1080 800 120).2 ∧
    (centerPlacement 1080 1080 800 120).1 + 800 ≤ 1080 ∧
    (centerPlacement 1080 1080 800 120).2 + 120 ≤ 1080 :=
  centered_placement_in_bounds 1080 1080 800 120 (by norm_num) (by norm_num)
    (by norm_num) (by norm_num) (by norm_num) (by norm_num)

/-- C2: for every quadruple of integers the placement computed by the script
equals exactly the spec's formula, the floor of the exact rational quotient
`(canvas - text) / 2` in each coordinate: Python `//` is floor division. -/
theorem centerPlacement_eq_spec (cw ch tw th : Int) :
    centerPlacement cw ch tw th = centerPlacementSpec cw ch tw th := by
  unfold centerPlacement centerPlacementSpec
  rw [centerX_eq_ediv, centerY_eq_ediv]
  have h2 : ((2 : ℚ)) = ((2 : ℕ) : ℚ) := by norm_num
  rw [h2, Rat.floor_intCast_div_natCast, Rat.floor_intCast_div_natCast]
  norm_num

/-- C3: with the manual override position `(620, 70)` supplied, the placement
used for the 1600×240 canvas is exactly `(620, 70)`, for every possible text
measurement — the centering computation is bypassed entirely. -/
theorem manual_override_bypasses_centering (tw th : Int) :
    resolvePlacement (some (620, 70)) 1600 240 tw th = (620, 70) := rfl

/-- C4: for non-negative inputs, text wider than the canvas by exactly 10
gives `x = -5`; any horizontal (resp. vertical) overflow gives a negative
`x` (resp. `y`); and the run does not reject overflow: with every external
step succeeding, the script completes (draws and saves) for any measured
bounding box whatsoever. -/
theorem overflow_gives_negative_coordinate (cw ch tw th : Int)
    (hcw : 0 ≤ cw) (hch : 0 ≤ ch) (htw : 0 ≤ tw) (hth : 0 ≤ th) :
    (tw = cw + 10 → centerX cw tw = -5) ∧
    (cw < tw → centerX cw tw < 0) ∧
    (ch < th → centerY ch th < 0) ∧
    (∀ (c : Canvas) (f : Font) (b : BBox) (sp : String),
      (runScript (some c) (some f) (fun _ _ => some b) (fun c2 _ => some c2)
        sp (fun _ _ => some ())).ok = true) := by
  refine ⟨?_, ?_, ?_, ?_⟩
  · intro h
    rw [centerX_eq_ediv, h]
    omega
  · intro h
    rw [centerX_eq_ediv]
    omega
  · intro h
    rw [centerY_eq_ediv]
    omega
  · intro c f b sp
    rfl

theorem overflow_gives_negative_coordinate_witness :
    centerX 100 110 = -5 ∧ centerX 100 110 < 0 ∧ centerY 50 60 < 0 :=
  ⟨(overflow_gives_negative_coordinate 100 50 110 60 (by norm_num) (by norm_num)
      (by norm_num) (by norm_num)).1 (by norm_num),
   (overflow_gives_negative_coordinate 100 50 110 60 (by norm_num) (by norm_num)
      (by norm_num) (by norm_num)).2.1 (by norm_num),
   (overflow_gives_negative_coordinate 100 50 110 60 (by norm_num) (by norm_num)
      (by norm_num) (by norm_num)).2.2.1 (by norm_num)⟩

/-- C5: on the script's 1080×1080 canvas, a measured 800×120 text block is
placed at exactly `(140, 480)`. -/
theorem scenario1_placement :
    centerPlacement scriptCanvas.width scriptCanvas.height 800 120 = (140, 480) := by
  decide

/-- C6: when the text block has exactly the canvas dimensions, the centered
placement is exactly `(0, 0)` (for any sizes, hence for all non-negative ones). -/
theorem degenerate_full_canvas (cw ch : Int) :
    centerPlacement cw ch cw ch = (0, 0) := by
  unfold centerPlacement centerX centerY
  rw [sub_self, sub_self, Int.zero_fdiv]

/-- C7: whenever the text fits the canvas, the centering remainder lands on
the bottom/right: each right/bottom margin is at least the opposing
left/top margin and exceeds it by at most 1. -/
theorem remainder_accumulates_bottom_right (cw ch tw th : Int)
    (hw : tw ≤ cw) (hh : th ≤ ch) :
    (centerPlacement cw ch tw th).1 ≤ cw - tw - (centerPlacement cw ch tw th).1 ∧
    cw - tw - (centerPlacement cw ch tw th).1 ≤ (centerPlacement cw ch tw th).1 + 1 ∧
    (centerPlacement cw ch tw th).2 ≤ ch - th - (centerPlacement cw ch tw th).2 ∧
    ch - th - (centerPlacement cw ch tw th).2 ≤ (centerPlacement cw ch tw th).2 + 1 := by
  unfold centerPlacement
  rw [centerX_eq_ediv, centerY_eq_ediv]
  refine ⟨?_, ?_, ?_, ?_⟩ <;> dsimp only <;> omega

theorem remainder_accumulates_bottom_right_witness :
    (centerPlacement 1080 1080 801 121).1 ≤ 1080 - 801 - (centerPlacement 1080 1080 801 121).1 ∧
    1080 - 801 - (centerPlacement 1080 1080 801 121).1 ≤ (centerPlacement 1080 1080 801 121).1 + 1 ∧
    (centerPlacement 1080 1080 801 121).2 ≤ 1080 - 121 - (centerPlacement 1080 1080 801 121).2 ∧
    1080 - 121 - (centerPlacement 1080 1080 801 121).2 ≤ (centerPlacement 1080 1080 801 121).2 + 1 :=
  remainder_accumulates_bottom_right 1080 1080 801 121 (by norm_num) (by norm_num)

/-- C8: the centering computation is deterministic: two evaluations on
identical inputs produce identical placements. -/
theorem centering_deterministic (cw ch tw th cw2 ch2 tw2 th2 : Int)
    (h1 : cw = cw2) (h2 : ch = ch2) (h3 : tw = tw2) (h4 : th = th2) :
    centerPlacement cw ch tw th = centerPlacement cw2 ch2 tw2 th2 := by
  subst h1 h2 h3 h4
  rfl

theorem centering_deterministic_witness :
    centerPlacement 1080 1080 800 120 = centerPlacement 1080 1080 800 120 :=
  centering_deterministic 1080 1080 800 120 1080 1080 800 120 rfl rfl rfl rfl

/-- C9: persistence is the last step: every run either completes and writes
exactly the one output file, or fails and writes nothing; and if the
background generation, the font loading, the measurement or the drawing
fails, the run aborts with nothing written. -/
theorem persistence_is_last_step (bg : Option Canvas) (fontLoad : Option Font)
    (measure : Canvas → Font → Option BBox)
    (drawStep : Canvas → Int × Int → Option Canvas)
    (savePath : String) (saveStep : Canvas → String → Option Unit) :
    (((runScript bg fontLoad measure drawStep savePath saveStep).ok = true ∧
        (runScript bg fontLoad measure drawStep savePath saveStep).written = [savePath]) ∨
      ((runScript bg fontLoad measure drawStep savePath saveStep).ok = false ∧
        (runScript bg fontLoad measure drawStep savePath saveStep).written = [])) ∧
    (bg = none ∨ fontLoad = none ∨ (∀ c f, measure c f = none) ∨
        (∀ c p, drawStep c p = none) →
      (runScript bg fontLoad measure drawStep savePath saveStep).ok = false ∧
        (runScript bg fontLoad measure drawStep savePath saveStep).written = []) := by
  constructor
  · unfold runScript
    repeat' split
    all_goals simp
  · intro hfail
    rcases bg with _ | c
    · exact ⟨rfl, rfl⟩
    rcases fontLoad with _ | f
    · exact ⟨rfl, rfl⟩
    rcases hfail with h | h | h | h
    · exact absurd h (by simp)
    · exact absurd h (by simp)
    · simp [runScript, h]
    · rcases hm : measure c f with _ | b
      · simp [runScript, hm]
      · simp [runScript, hm, h]

theorem persistence_is_last_step_witness :
    (runScript (none : Option Canvas) (some ⟨"Arial Bold.ttf", 160⟩)
        (fun _ _ => some ⟨0, 0, 1, 1⟩) (fun c _ => some c) "logo.png"
        (fun _ _ => some ())).ok = false ∧
    (runScript (none : Option Canvas) (some ⟨"Arial Bold.ttf", 160⟩)
        (fun _ _ => some ⟨0, 0, 1, 1⟩) (fun c _ => some c) "logo.png"
        (fun _ _ => some ())).written = [] :=
  (persistence_is_last_step none (some ⟨"Arial Bold.ttf", 160⟩)
      (fun _ _ => some ⟨0, 0, 1, 1⟩) (fun c _ => some c) "logo.png"
      (fun _ _ => some ())).2 (Or.inl rfl)

/-- C10: the coordinate handed to the drawing primitive is the centering
formula applied to the bbox extents without subtracting the bbox origin, so
the ink's top-left corner is the centered placement shifted by exactly
`(bbox[0], bbox[1])` — and the drawn block is exactly centered precisely
when that origin is `(0, 0)`. -/
theorem ink_shifted_by_bbox_origin (cw ch : Int) (b : BBox) :
    inkTopLeft cw ch b =
      ((centerPlacement cw ch ( text_width b) ( text_height b)).1 + b.x0,
        (centerPlacement cw ch ( text_width b) ( text_height b)).2 + b.y0) ∧
    (inkTopLeft cw ch b = centerPlacement cw ch ( text_width b) ( text_height b) ↔
      b.x0 = 0 ∧ b.y0 = 0) := by
  constructor
  · unfold inkTopLeft drawnBBox scriptPlacement
    rfl
  · unfold inkTopLeft drawnBBox scriptPlacement centerPlacement
    constructor
    · intro h
      have h1 := congrArg Prod.fst h
      have h2 := congrArg Prod.snd h
      dsimp at h1 h2
      omega
    · rintro ⟨hx, hy⟩
      rw [hx, hy]
      dsimp
      rw [add_zero, add_zero]

end LogoGen
